/-
Verification of the scoring and synthetic-telemetry-generation engine of the
harmony-aura backend (src/backend/app/api/workers.py, machines.py).

Shallow embedding conventions:
- Python ints are modelled as ℤ, Python floats as ℚ (the code only compares,
  adds, multiplies and clamps them; all literals appearing in the code are
  exactly representable).
- `int(x)` (truncation toward zero) is `pyInt`; `round(x, d)` (round half to
  even at d decimal digits) is `pyRound x d`; `str.lower()` / `str.upper()`
  are `pyLower` / `pyUpper`.
- `random.uniform(a, b)` is modelled by an explicit unit draw `u ∈ [0,1]`
  supplied by the caller, yielding `uniform a b u = a + u * (b - a)`;
  `random.random()` is a draw `u ∈ [0,1)` used directly.  A generator call
  therefore becomes a deterministic function of a record of draws.
-/
import Mathlib

namespace HarmonyAura

/-- Python-style clamp: `max lo (min hi x)` as written in the sources. -/
def clamp (lo hi x : ℚ) : ℚ := max lo (min hi x)

/-- `random.uniform a b` as a function of a unit draw `u`. -/
def uniform (a b u : ℚ) : ℚ := a + u * (b - a)

/-- Python `int()`: truncation toward zero. -/
def pyInt (q : ℚ) : ℤ := if q < 0 then ⌈q⌉ else ⌊q⌋

/-- Round half to even to the nearest integer (Python `round(x)` semantics). -/
def roundHalfEven (q : ℚ) : ℤ :=
  let f := ⌊q⌋
  let r := q - f
  if r < 1/2 then f
  else if 1/2 < r then f + 1
  else if f % 2 = 0 then f else f + 1

/-- Python `round(x, d)` on exact rationals. -/
def pyRound (q : ℚ) (d : ℕ) : ℚ := (roundHalfEven (q * 10 ^ d) : ℚ) / 10 ^ d

/-- Python `str.lower()` (ASCII suffices for the strings in this code). -/
def pyLower (s : String) : String := String.mk (s.data.map Char.toLower)

/-- Python `str.upper()`. -/
def pyUpper (s : String) : String := String.mk (s.data.map Char.toUpper)

/- ===================== Worker pipeline data model ===================== -/

/-- `WorkerVitalsCreate` (schemas/worker.py): the raw worker reading. -/
structure WorkerVitalsCreate where
  worker_id : String
  heart_rate : ℤ
  hrv : ℤ
  temperature : ℚ
  jerk_count : ℤ
  machine_stress_index : ℤ
  vibration_rms : ℚ
deriving Repr, DecidableEq

/-- The declared field bounds of `WorkerVitalsCreate` (pydantic `ge`/`le`). -/
def workerVitalsInBounds (v : WorkerVitalsCreate) : Prop :=
  40 ≤ v.heart_rate ∧ v.heart_rate ≤ 220 ∧
  0 ≤ v.hrv ∧ v.hrv ≤ 200 ∧
  30 ≤ v.temperature ∧ v.temperature ≤ 45 ∧
  0 ≤ v.jerk_count ∧
  0 ≤ v.machine_stress_index ∧ v.machine_stress_index ≤ 100 ∧
  0 ≤ v.vibration_rms

instance (v : WorkerVitalsCreate) : Decidable (workerVitalsInBounds v) := by
  unfold workerVitalsInBounds; infer_instance

/-- `calculate_cis_score` (workers.py lines 30-68), translated statement by
statement: sequential penalty subtraction then `max(0, min(100, score))`. -/
def calculate_cis_score (vitals : WorkerVitalsCreate) : ℤ :=
  let score : ℤ := 100
  -- Heart rate penalties
  let score := score - (if vitals.heart_rate > 120 then 30
    else if vitals.heart_rate > 100 then 15
    else if vitals.heart_rate < 50 then 20 else 0)
  -- HRV penalties (low HRV = high stress)
  let score := score - (if vitals.hrv < 20 then 30
    else if vitals.hrv < 35 then 15 else 0)
  -- Temperature penalties
  let score := score - (if vitals.temperature > 38.5 then 30
    else if vitals.temperature > 37.5 then 15
    else if vitals.temperature < 35.5 then 20 else 0)
  -- Machine stress penalty
  let score := score - (if vitals.machine_stress_index > 70 then 20
    else if vitals.machine_stress_index > 50 then 10 else 0)
  -- Jerk count penalty
  let score := score - min (vitals.jerk_count * 2) 15
  max 0 (min 100 score)

/-- `determine_risk_state` (workers.py lines 71-77). -/
def determine_risk_state (cis_score : ℤ) : String :=
  if cis_score ≤ 30 then "HIGH"
  else if cis_score ≤ 70 then "MEDIUM"
  else "LOW"

/- ===================== Machine pipeline data model ===================== -/

/-- `MachineTelemetryCreate` (schemas/machine.py): the raw machine reading. -/
structure MachineTelemetryCreate where
  machine_id : String
  stress_index : ℤ
  temperature : ℚ
  vibration_rms : ℚ
  operating_hours : ℚ
  fuel_level : ℤ
  oil_pressure : ℤ
deriving Repr, DecidableEq

/-- The declared field bounds of `MachineTelemetryCreate`. -/
def machineTelemetryInBounds (t : MachineTelemetryCreate) : Prop :=
  0 ≤ t.stress_index ∧ t.stress_index ≤ 100 ∧
  0 ≤ t.temperature ∧ t.temperature ≤ 200 ∧
  0 ≤ t.vibration_rms ∧
  0 ≤ t.operating_hours ∧
  0 ≤ t.fuel_level ∧ t.fuel_level ≤ 100 ∧
  0 ≤ t.oil_pressure ∧ t.oil_pressure ≤ 100

instance (t : MachineTelemetryCreate) : Decidable (machineTelemetryInBounds t) := by
  unfold machineTelemetryInBounds; infer_instance

/-- `calculate_health_score` (machines.py lines 30-67). -/
def calculate_health_score (telemetry : MachineTelemetryCreate) : ℤ :=
  let score : ℤ := 100
  -- Stress index penalties
  let score := score - (if telemetry.stress_index > 80 then 30
    else if telemetry.stress_index > 60 then 15
    else if telemetry.stress_index > 40 then 5 else 0)
  -- Temperature penalties
  let score := score - (if telemetry.temperature > 90 then 30
    else if telemetry.temperature > 75 then 15
    else if telemetry.temperature > 60 then 5 else 0)
  -- Vibration penalties
  let score := score - (if telemetry.vibration_rms > 3.0 then 25
    else if telemetry.vibration_rms > 2.0 then 15
    else if telemetry.vibration_rms > 1.5 then 5 else 0)
  -- Oil pressure penalties
  let score := score - (if telemetry.oil_pressure < 20 then 25
    else if telemetry.oil_pressure < 30 then 10 else 0)
  max 0 (min 100 score)

/-- `calculate_failure_probability` (machines.py lines 70-83). -/
def calculate_failure_probability (health_score : ℤ)
    (telemetry : MachineTelemetryCreate) : ℤ :=
  let prob := max 0 (100 - health_score)
  let prob := prob + (if telemetry.vibration_rms > 2.5 then 15 else 0)
  let prob := prob + (if telemetry.temperature > 80 then 10 else 0)
  let prob := prob + (if telemetry.oil_pressure < 25 then 15 else 0)
  min 100 (max 0 prob)

/-- `determine_status` (machines.py lines 86-92). -/
def determine_status (health_score failure_prob : ℤ) : String :=
  if health_score < 40 ∨ failure_prob > 70 then "MAINTENANCE"
  else if health_score < 60 ∨ failure_prob > 50 then "WARNING"
  else "OPERATIONAL"

/-- `predicted_days = max(1, int((100 - failure_prob) / 3))`
(machines.py line 116; `/` is Python float division, `int` truncates). -/
def predicted_maintenance_days (failure_prob : ℤ) : ℤ :=
  max 1 (pyInt ((100 - (failure_prob : ℚ)) / 3))

/- ============ Spec-side formulas (for refinement comparison) ============ -/

/-- Spec-side worker score, following the claim's wording: 100 minus the sum
of independent per-metric penalties, clamped to [0,100].  To be compared with
`calculate_cis_score`, which was translated from the source. -/
def cisScoreSpecFormula (v : WorkerVitalsCreate) : ℤ :=
  let hrPenalty : ℤ := if v.heart_rate > 120 then 30
    else if v.heart_rate > 100 then 15
    else if v.heart_rate < 50 then 20 else 0
  let hrvPenalty : ℤ := if v.hrv < 20 then 30 else if v.hrv < 35 then 15 else 0
  let tempPenalty : ℤ := if v.temperature > 38.5 then 30
    else if v.temperature > 37.5 then 15
    else if v.temperature < 35.5 then 20 else 0
  let msiPenalty : ℤ := if v.machine_stress_index > 70 then 20
    else if v.machine_stress_index > 50 then 10 else 0
  let jerkPenalty : ℤ := min (v.jerk_count * 2) 15
  max 0 (min 100 (100 - (hrPenalty + hrvPenalty + tempPenalty + msiPenalty + jerkPenalty)))

/-- Spec-side machine health score, following the claim's wording: 100 minus
tiered penalties, clamped to [0,100]. -/
def healthScoreSpecFormula (t : MachineTelemetryCreate) : ℤ :=
  let stressPenalty : ℤ := if t.stress_index > 80 then 30
    else if t.stress_index > 60 then 15
    else if t.stress_index > 40 then 5 else 0
  let tempPenalty : ℤ := if t.temperature > 90 then 30
    else if t.temperature > 75 then 15
    else if t.temperature > 60 then 5 else 0
  let vibPenalty : ℤ := if t.vibration_rms > 3.0 then 25
    else if t.vibration_rms > 2.0 then 15
    else if t.vibration_rms > 1.5 then 5 else 0
  let oilPenalty : ℤ := if t.oil_pressure < 20 then 25
    else if t.oil_pressure < 30 then 10 else 0
  max 0 (min 100 (100 - (stressPenalty + tempPenalty + vibPenalty + oilPenalty)))

/-- Spec-side failure probability, following the claim's wording: 100 minus
health_score, plus the three add-ons, clamped to [0,100]. -/
def failureProbSpecFormula (health_score : ℤ) (t : MachineTelemetryCreate) : ℤ :=
  max 0 (min 100 (100 - health_score
    + (if t.vibration_rms > 2.5 then 15 else 0)
    + (if t.temperature > 80 then 10 else 0)
    + (if t.oil_pressure < 25 then 15 else 0)))

/-- Spec-side predicted maintenance days: `max(1, floor((100 - fp)/3))`. -/
def predictedDaysSpecFormula (failure_prob : ℤ) : ℤ :=
  max 1 ⌊(100 - (failure_prob : ℚ)) / 3⌋

/-- The concrete example reading of the spec's worker-scorer test vector. -/
def exampleVitalsC1 : WorkerVitalsCreate :=
  { worker_id := "WK-1", heart_rate := 130, hrv := 15, temperature := 39.0,
    jerk_count := 5, machine_stress_index := 80, vibration_rms := 0 }

/-- The concrete example reading of the spec's machine-scorer test vector. -/
def exampleTelemetryC2 : MachineTelemetryCreate :=
  { machine_id := "M1", stress_index := 85, temperature := 95, vibration_rms := 3.5,
    operating_hours := 0, fuel_level := 50, oil_pressure := 15 }

/-- A nominal in-bounds worker reading (heart_rate 60), used as a concrete
anchor for witnesses. -/
def exampleVitalsNominal : WorkerVitalsCreate :=
  { worker_id := "WK-1", heart_rate := 60, hrv := 50, temperature := 36.8,
    jerk_count := 0, machine_stress_index := 40, vibration_rms := 0 }

/- ===================== Worker telemetry generator ===================== -/

/-- The `target_state` query value: `"good"`, `"fair"` or `"poor"`. -/
inductive TargetState | good | fair | poor
deriving Repr, DecidableEq

/-- One row of the worker generator's `targets` table (workers.py 146-150). -/
structure WorkerTargets where
  hr : ℚ × ℚ
  hrv : ℚ × ℚ
  temp : ℚ × ℚ
  stress : ℚ × ℚ

/-- The worker generator's `targets` dict (workers.py 146-150). -/
def workerTargets : TargetState → WorkerTargets
  | .good => { hr := (60, 80), hrv := (65, 95), temp := (36.3, 36.8), stress := (0.0, 0.25) }
  | .fair => { hr := (80, 100), hrv := (35, 60), temp := (36.9, 37.3), stress := (0.3, 0.5) }
  | .poor => { hr := (115, 155), hrv := (15, 30), temp := (37.4, 38.3), stress := (0.6, 0.9) }

/-- The `current_values` dict handed to the worker generator
(`generate_incremental_worker_telemetry`, workers.py 233-245, supplies all
these keys). -/
structure WorkerPrevValues where
  heart_rate_bpm : ℚ
  heart_rate_variability_ms : ℚ
  body_temperature_c : ℚ
  movement_intensity_norm : ℚ
  blood_oxygen_pct : ℚ
  ambient_temperature_c : ℚ
  noise_level_db : ℚ
  air_quality_index : ℚ
  step_count_session : ℚ
  posture_strain_index : ℚ
deriving Repr, DecidableEq

/-- The unit draws one worker generator call consumes, one per `get_value`
call feeding an output field, plus the jerk-bonus Bernoulli draw. -/
structure WorkerRand where
  u_heart_rate : ℚ
  u_hrv : ℚ
  u_body_temp : ℚ
  u_movement : ℚ
  u_jerk_bonus : ℚ
deriving Repr, DecidableEq

/-- All draws of a `WorkerRand` lie in the unit interval
(`random.uniform` / `random.random` can only produce such draws). -/
def workerRandValid (r : WorkerRand) : Prop :=
  0 ≤ r.u_heart_rate ∧ r.u_heart_rate ≤ 1 ∧
  0 ≤ r.u_hrv ∧ r.u_hrv ≤ 1 ∧
  0 ≤ r.u_body_temp ∧ r.u_body_temp ≤ 1 ∧
  0 ≤ r.u_movement ∧ r.u_movement ≤ 1 ∧
  0 ≤ r.u_jerk_bonus ∧ r.u_jerk_bonus ≤ 1

instance (r : WorkerRand) : Decidable (workerRandValid r) := by
  unfold workerRandValid; infer_instance

/-- `get_value` of the worker generator (workers.py 154-170): in strict
target mode the target draw is returned unclamped (early `return`);
otherwise previous value plus delta draw, or a default-range draw, then
clamped when a clamp range is given.  `tgtRange` is the target range of this
key when a target state is set and the key is one of the four targeted keys,
`none` otherwise. -/
def worker_get_value (tgtRange : Option (ℚ × ℚ)) (prev : Option ℚ)
    (defaultLo defaultHi dlo dhi : ℚ) (clampRange : Option (ℚ × ℚ)) (u : ℚ) : ℚ :=
  match tgtRange with
  | some (a, b) => uniform a b u
  | none =>
    let value := match prev with
      | some p => p + uniform dlo dhi u
      | none => uniform defaultLo defaultHi u
    match clampRange with
    | some (lo, hi) => clamp lo hi value
    | none => value

/-- The worker generator's embedded safety scoring block
(workers.py 192-196): three independent penalties, then clamp. -/
def workerEmbeddedScore (heart_rate hrv : ℤ) (body_temp : ℚ) : ℤ :=
  let score : ℤ := 100
  let score := score - (if heart_rate > 110 then 20 else 0)
  let score := score - (if hrv < 25 then 20 else 0)
  let score := score - (if body_temp > 38.0 then 25 else 0)
  max 0 (min 100 score)

/-- The flat fields of the dict returned by the worker generator
(workers.py 205-221; the nested presentation sub-objects, and the generated
metrics no output field depends on — spo2, ambient, noise, air quality,
step count, posture strain — are omitted). -/
structure WorkerTelemetryOut where
  heart_rate : ℤ
  hrv : ℤ
  temperature : ℚ
  jerk_count : ℤ
  machine_stress_index : ℤ
  vibration_rms : ℚ
  cis_score : ℤ
  risk_state : String
deriving Repr, DecidableEq

/-- `generate_comprehensive_worker_telemetry` (workers.py 139-221) as a
deterministic function of the draw record. -/
def generate_comprehensive_worker_telemetry (current_values : Option WorkerPrevValues)
    (target_state : Option TargetState) (r : WorkerRand) : WorkerTelemetryOut :=
  let tgt := target_state.map workerTargets
  let heart_rate := pyInt (worker_get_value (tgt.map (·.hr))
    (current_values.map (·.heart_rate_bpm)) 60 95 (-3) 3 (some (45, 180)) r.u_heart_rate)
  let hrv := pyInt (worker_get_value (tgt.map (·.hrv))
    (current_values.map (·.heart_rate_variability_ms)) 30 80 (-5) 5 (some (10, 150)) r.u_hrv)
  let body_temp := pyRound (worker_get_value (tgt.map (·.temp))
    (current_values.map (·.body_temperature_c)) 36.5 37.2 (-0.1) 0.1 (some (35.0, 40.0)) r.u_body_temp) 1
  let movement_intensity := pyRound (worker_get_value (tgt.map (·.stress))
    (current_values.map (·.movement_intensity_norm)) 0.2 0.7 (-0.05) 0.05 (some (0.0, 1.0)) r.u_movement) 2
  let jerk_count := pyInt (movement_intensity * 10) + (if r.u_jerk_bonus < 0.1 then 1 else 0)
  let cis_score := workerEmbeddedScore heart_rate hrv body_temp
  let risk_state := pyLower (determine_risk_state cis_score)
  let machine_stress := pyInt (movement_intensity * 100)
  let vibration_rms := pyRound (movement_intensity * 0.5) 2
  { heart_rate := heart_rate, hrv := hrv, temperature := body_temp,
    jerk_count := jerk_count, machine_stress_index := machine_stress,
    vibration_rms := vibration_rms, cis_score := cis_score,
    risk_state := pyUpper risk_state }

/-- Reassemble a generator output's primary metric fields as a raw reading,
for feeding them to the standalone scorer. -/
def workerOutToVitals (o : WorkerTelemetryOut) : WorkerVitalsCreate :=
  { worker_id := "", heart_rate := o.heart_rate, hrv := o.hrv,
    temperature := o.temperature, jerk_count := o.jerk_count,
    machine_stress_index := o.machine_stress_index, vibration_rms := o.vibration_rms }

/- ===================== Machine telemetry generator ===================== -/

/-- One row of `TARGET_RANGES` (machines.py 344-348). -/
structure MachineTargetRange where
  norm : ℚ × ℚ
  temp_offset : ℚ × ℚ

/-- `TARGET_RANGES` (machines.py 344-348). -/
def machineTargetRanges : TargetState → MachineTargetRange
  | .good => { norm := (0.05, 0.35), temp_offset := (-10, -2) }
  | .fair => { norm := (0.40, 0.65), temp_offset := (-2, 5) }
  | .poor => { norm := (0.70, 0.95), temp_offset := (5, 15) }

/-- One machine type's entry of `TYPE_PROFILES` (machines.py 279-322). -/
structure MachineProfile where
  temp_range : ℚ × ℚ
  vibration_range : ℚ × ℚ
  stress_range : ℚ × ℚ
  fuel_range : ℚ × ℚ
  oil_range : ℚ × ℚ

/-- `TYPE_PROFILES["CRANE"]`. -/
def craneProfile : MachineProfile :=
  { temp_range := (45, 85), vibration_range := (0.5, 2.5), stress_range := (20, 70),
    fuel_range := (30, 95), oil_range := (35, 55) }

/-- `TYPE_PROFILES["EXCAVATOR"]`. -/
def excavatorProfile : MachineProfile :=
  { temp_range := (50, 95), vibration_range := (0.8, 3.2), stress_range := (30, 80),
    fuel_range := (20, 90), oil_range := (30, 50) }

/-- `TYPE_PROFILES["LOADER"]`. -/
def loaderProfile : MachineProfile :=
  { temp_range := (45, 80), vibration_range := (0.6, 2.8), stress_range := (25, 75),
    fuel_range := (25, 85), oil_range := (32, 52) }

/-- `TYPE_PROFILES["DRILL"]`. -/
def drillProfile : MachineProfile :=
  { temp_range := (55, 100), vibration_range := (1.0, 4.0), stress_range := (40, 90),
    fuel_range := (15, 80), oil_range := (28, 48) }

/-- `TYPE_PROFILES["COMPRESSOR"]`. -/
def compressorProfile : MachineProfile :=
  { temp_range := (60, 95), vibration_range := (0.4, 2.0), stress_range := (20, 60),
    fuel_range := (40, 100), oil_range := (38, 58) }

/-- `TYPE_PROFILES["GENERATOR"]`. -/
def generatorProfile : MachineProfile :=
  { temp_range := (50, 85), vibration_range := (0.3, 1.8), stress_range := (15, 55),
    fuel_range := (10, 100), oil_range := (35, 55) }

/-- The `prev_values` dict handed to the machine generator
(`generate_incremental_telemetry`, machines.py 499-510, supplies all keys). -/
structure MachinePrevValues where
  actuator_speed_norm : ℚ
  torque_load_norm : ℚ
  duty_cycle : ℚ
  vibration_rms_norm : ℚ
  rpm_instability : ℚ
  engine_temperature_c : ℚ
  operating_hours_total : ℚ
  continuous_run_minutes : ℚ
  fuel_level : ℚ
  oil_pressure : ℚ
deriving Repr, DecidableEq

/-- The unit draws one machine generator call consumes. -/
structure MachineRand where
  u_actuator : ℚ
  u_torque : ℚ
  u_duty : ℚ
  u_vibration : ℚ
  u_shock : ℚ
  u_rpm : ℚ
  u_temp_offset : ℚ
  u_engine_temp : ℚ
  u_oil_temp : ℚ
  u_hours : ℚ
  u_run : ℚ
  u_fuel : ℚ
  u_oil : ℚ
deriving Repr, DecidableEq

/-- All draws of a `MachineRand` lie in the unit interval. -/
def machineRandValid (r : MachineRand) : Prop :=
  0 ≤ r.u_actuator ∧ r.u_actuator ≤ 1 ∧
  0 ≤ r.u_torque ∧ r.u_torque ≤ 1 ∧
  0 ≤ r.u_duty ∧ r.u_duty ≤ 1 ∧
  0 ≤ r.u_vibration ∧ r.u_vibration ≤ 1 ∧
  0 ≤ r.u_shock ∧ r.u_shock ≤ 1 ∧
  0 ≤ r.u_rpm ∧ r.u_rpm ≤ 1 ∧
  0 ≤ r.u_temp_offset ∧ r.u_temp_offset ≤ 1 ∧
  0 ≤ r.u_engine_temp ∧ r.u_engine_temp ≤ 1 ∧
  0 ≤ r.u_oil_temp ∧ r.u_oil_temp ≤ 1 ∧
  0 ≤ r.u_hours ∧ r.u_hours ≤ 1 ∧
  0 ≤ r.u_run ∧ r.u_run ≤ 1 ∧
  0 ≤ r.u_fuel ∧ r.u_fuel ≤ 1 ∧
  0 ≤ r.u_oil ∧ r.u_oil ≤ 1

instance (r : MachineRand) : Decidable (machineRandValid r) := by
  unfold machineRandValid; infer_instance

/-- `get_value` of the machine generator (machines.py 353-373): the strict
target branch applies only to keys ending in `_norm` (callers resolve this
into `tgtRange`), and — unlike the worker version — its value still runs
through the final clamp. -/
def machine_get_value (tgtRange : Option (ℚ × ℚ)) (prev : Option ℚ)
    (defaultLo defaultHi dlo dhi : ℚ) (clampRange : Option (ℚ × ℚ)) (u : ℚ) : ℚ :=
  let value := match tgtRange with
    | some (a, b) => uniform a b u
    | none =>
      match prev with
      | some p => p + uniform dlo dhi u
      | none => uniform defaultLo defaultHi u
  match clampRange with
  | some (lo, hi) => clamp lo hi value
  | none => value

/-- The fields of the dict returned by the machine generator
(machines.py 456-488), legacy flat fields plus the generated sub-metrics
(the nested grouping itself carries no further data). -/
structure MachineTelemetryOut where
  temperature : ℚ
  vibration_rms : ℚ
  stress_index : ℤ
  fuel_level : ℤ
  oil_pressure : ℤ
  operating_hours : ℚ
  actuator_speed_norm : ℚ
  torque_load_norm : ℚ
  duty_cycle : ℚ
  vibration_rms_norm : ℚ
  shock_event : Bool
  rpm_instability : ℚ
  engine_temperature_c : ℚ
  oil_temperature_c : ℚ
  operating_hours_total : ℤ
  continuous_run_minutes : ℤ
  machine_health_score : ℤ
  maintenance_state : String
deriving Repr, DecidableEq

/-- `generate_comprehensive_telemetry` (machines.py 336-488) as a
deterministic function of the draw record. -/
def generate_comprehensive_telemetry (profile : MachineProfile)
    (current_values : Option MachinePrevValues) (target_state : Option TargetState)
    (r : MachineRand) : MachineTelemetryOut :=
  let target_range := target_state.map machineTargetRanges
  let tn := target_range.map (·.norm)
  let actuator_speed_norm := pyRound (machine_get_value tn
    (current_values.map (·.actuator_speed_norm)) 0.4 0.9 (-0.05) 0.05 (some (0.1, 1.0)) r.u_actuator) 2
  let torque_load_norm := pyRound (machine_get_value tn
    (current_values.map (·.torque_load_norm)) 0.3 0.85 (-0.04) 0.04 (some (0.1, 1.0)) r.u_torque) 2
  let duty_cycle := pyRound (machine_get_value tn
    (current_values.map (·.duty_cycle)) 0.5 0.95 (-0.03) 0.03 (some (0.2, 1.0)) r.u_duty) 2
  -- vibration default is the profile range scaled from RMS to normalized,
  -- overridden by the target norm range when a target state is present
  let vib_default := match target_range with
    | some tr => tr.norm
    | none => (profile.vibration_range.1 / 4, profile.vibration_range.2 / 4)
  let vibration_rms_norm := pyRound (machine_get_value tn
    (current_values.map (·.vibration_rms_norm)) vib_default.1 vib_default.2
    (-0.08) 0.08 (some (0.1, 1.0)) r.u_vibration) 2
  let shock_prob : ℚ := match target_state with
    | some .good => 0.01
    | some .poor => 0.25
    | _ => 0.08
  let shock_event := r.u_shock < shock_prob
  -- "rpm_instability" does not end in "_norm": only its default is retargeted
  let rpm_default := match target_range with
    | some tr => tr.norm
    | none => (0.05, 0.4)
  let rpm_instability := pyRound (machine_get_value none
    (current_values.map (·.rpm_instability)) rpm_default.1 rpm_default.2
    (-0.03) 0.03 (some (0.0, 1.0)) r.u_rpm) 2
  -- thermal stress: target state shifts the profile temperature range
  let effective_temp_range := match target_range with
    | some tr =>
      let mid := (profile.temp_range.1 + profile.temp_range.2) / 2
      let offset := uniform tr.temp_offset.1 tr.temp_offset.2 r.u_temp_offset
      (mid + offset - 5, mid + offset + 5)
    | none => profile.temp_range
  let engine_temperature_c := pyRound (machine_get_value none
    (current_values.map (·.engine_temperature_c)) effective_temp_range.1
    effective_temp_range.2 (-2.0) 2.0 (some (40, 120)) r.u_engine_temp) 1
  let oil_temperature_c := pyRound (engine_temperature_c - uniform 2 8 r.u_oil_temp) 1
  let operating_hours_total := pyInt (machine_get_value none
    (current_values.map (·.operating_hours_total)) 500 3000 0.1 0.5 (some (0, 10000)) r.u_hours)
  let continuous_run_minutes := pyInt (machine_get_value none
    (current_values.map (·.continuous_run_minutes)) 30 240 (-5) 10 (some (0, 480)) r.u_run)
  let stress_index := pyInt (min 100 (max 0
    (vibration_rms_norm * 40 + (if shock_event then 20 else 0)
      + rpm_instability * 30 + (engine_temperature_c - 70) * 0.5)))
  let health_score := pyInt (max 0 (min 100
    (100 - (stress_index : ℚ) * 0.4 - (if shock_event then 10 else 0)
      - max 0 (engine_temperature_c - 95) * 2)))
  let maintenance_state := if health_score ≥ 80 then "normal"
    else if health_score ≥ 60 then "attention"
    else if health_score ≥ 40 then "warning"
    else "critical"
  let fuel_level := pyInt (machine_get_value none
    (current_values.map (·.fuel_level)) profile.fuel_range.1 profile.fuel_range.2
    (-1.5) 0.5 (some (5, 100)) r.u_fuel)
  let oil_pressure := pyInt (machine_get_value none
    (current_values.map (·.oil_pressure)) profile.oil_range.1 profile.oil_range.2
    (-1.0) 1.0 (some (20, 60)) r.u_oil)
  { temperature := engine_temperature_c,
    vibration_rms := pyRound (vibration_rms_norm * 4.0) 2,
    stress_index := stress_index, fuel_level := fuel_level,
    oil_pressure := oil_pressure,
    operating_hours := pyRound ((continuous_run_minutes : ℚ) / 60) 1,
    actuator_speed_norm := actuator_speed_norm, torque_load_norm := torque_load_norm,
    duty_cycle := duty_cycle, vibration_rms_norm := vibration_rms_norm,
    shock_event := shock_event, rpm_instability := rpm_instability,
    engine_temperature_c := engine_temperature_c, oil_temperature_c := oil_temperature_c,
    operating_hours_total := operating_hours_total,
    continuous_run_minutes := continuous_run_minutes,
    machine_health_score := health_score, maintenance_state := maintenance_state }

/- ============== Ingestion endpoints (persistence effect) ============== -/

/-- A persisted `WorkerVitals` row (models/worker.py). -/
structure StoredWorkerVitals where
  worker_id : String
  heart_rate : ℤ
  hrv : ℤ
  temperature : ℚ
  jerk_count : ℤ
  machine_stress_index : ℤ
  vibration_rms : ℚ
  cis_score : ℤ
  risk_state : String
  break_flag : Bool
deriving Repr, DecidableEq

/-- The worker-side store: registered worker ids and the vitals history
(most recent first). -/
structure WorkerDB where
  workers : List String
  vitals_history : List StoredWorkerVitals
deriving Repr, DecidableEq

/-- The `WorkerVitals` row built by `create_worker_vitals` (workers.py 444-455). -/
def mkStoredWorkerVitals (v : WorkerVitalsCreate) : StoredWorkerVitals :=
  { worker_id := v.worker_id, heart_rate := v.heart_rate, hrv := v.hrv,
    temperature := v.temperature, jerk_count := v.jerk_count,
    machine_stress_index := v.machine_stress_index, vibration_rms := v.vibration_rms,
    cis_score := calculate_cis_score v,
    risk_state := determine_risk_state (calculate_cis_score v), break_flag := false }

/-- `create_worker_vitals` (workers.py 423-460): auto-registers an unknown
worker, then always persists the scored vitals row. -/
def create_worker_vitals (db : WorkerDB) (v : WorkerVitalsCreate) :
    WorkerDB × StoredWorkerVitals :=
  let db := if v.worker_id ∈ db.workers then db
    else { db with workers := v.worker_id :: db.workers }
  let entry := mkStoredWorkerVitals v
  ({ db with vitals_history := entry :: db.vitals_history }, entry)

/-- A persisted `MachineTelemetry` row (models/machine.py). -/
structure StoredMachineTelemetry where
  machine_id : String
  status : String
  stress_index : ℤ
  temperature : ℚ
  vibration_rms : ℚ
  operating_hours : ℚ
  fuel_level : ℤ
  oil_pressure : ℤ
  failure_probability : ℤ
  health_score : ℤ
  predicted_maintenance_days : ℤ
deriving Repr, DecidableEq

/-- The machine-side store. -/
structure MachineDB where
  machines : List String
  telemetry_history : List StoredMachineTelemetry
deriving Repr, DecidableEq

/-- The `MachineTelemetry` row built by `create_machine_telemetry`
(machines.py 112-131). -/
def mkStoredMachineTelemetry (t : MachineTelemetryCreate) : StoredMachineTelemetry :=
  let health_score := calculate_health_score t
  let failure_prob := calculate_failure_probability health_score t
  { machine_id := t.machine_id,
    status := determine_status health_score failure_prob,
    stress_index := t.stress_index, temperature := t.temperature,
    vibration_rms := t.vibration_rms, operating_hours := t.operating_hours,
    fuel_level := t.fuel_level, oil_pressure := t.oil_pressure,
    failure_probability := failure_prob, health_score := health_score,
    predicted_maintenance_days := predicted_maintenance_days failure_prob }

/-- `create_machine_telemetry` (machines.py 95-136): a 404 for an
unregistered machine (nothing persisted), otherwise the scored row is
appended to history. -/
def create_machine_telemetry (db : MachineDB) (t : MachineTelemetryCreate) :
    Except String (MachineDB × StoredMachineTelemetry) :=
  if t.machine_id ∈ db.machines then
    let entry := mkStoredMachineTelemetry t
    .ok ({ db with telemetry_history := entry :: db.telemetry_history }, entry)
  else
    .error ("Machine " ++ t.machine_id ++ " not registered. Please register first.")

/- ============== Remaining concrete anchors and step functions ============== -/

/-- One incremental (previous present, no target) generation step for a
single metric of the worker generator. -/
def worker_incremental_step (dlo dhi lo hi p u : ℚ) : ℚ :=
  worker_get_value none (some p) 0 0 dlo dhi (some (lo, hi)) u

/-- One incremental (previous present, no target) generation step for a
single metric of the machine generator. -/
def machine_incremental_step (dlo dhi lo hi p u : ℚ) : ℚ :=
  machine_get_value none (some p) 0 0 dlo dhi (some (lo, hi)) u

/-- A reachable worker draw record: every `random.uniform` draw at its lower
end, the jerk-bonus draw at 0.5. -/
def cexWorkerRand : WorkerRand :=
  { u_heart_rate := 0, u_hrv := 0, u_body_temp := 0, u_movement := 0, u_jerk_bonus := 0.5 }

/-- A reachable machine draw record: every `random.uniform` draw at its lower
end, the shock draw at 0.5. -/
def cexMachineRand : MachineRand :=
  { u_actuator := 0, u_torque := 0, u_duty := 0, u_vibration := 0, u_shock := 0.5,
    u_rpm := 0, u_temp_offset := 0, u_engine_temp := 0, u_oil_temp := 0,
    u_hours := 0, u_run := 0, u_fuel := 0, u_oil := 0 }

/-- A machine draw record with every draw at mid-range. -/
def halfMachineRand : MachineRand :=
  { u_actuator := 0.5, u_torque := 0.5, u_duty := 0.5, u_vibration := 0.5, u_shock := 0.5,
    u_rpm := 0.5, u_temp_offset := 0.5, u_engine_temp := 0.5, u_oil_temp := 0.5,
    u_hours := 0.5, u_run := 0.5, u_fuel := 0.5, u_oil := 0.5 }

/-- A store with no registered workers and no history. -/
def emptyWorkerDB : WorkerDB := { workers := [], vitals_history := [] }

/-- A store with no registered machines and no history. -/
def emptyMachineDB : MachineDB := { machines := [], telemetry_history := [] }

/- ===================== Helper lemmas ===================== -/

lemma cis_score_bounds (v : WorkerVitalsCreate) :
    0 ≤ calculate_cis_score v ∧ calculate_cis_score v ≤ 100 := by
  simp only [calculate_cis_score]
  split_ifs <;> omega

lemma health_score_bounds (t : MachineTelemetryCreate) :
    0 ≤ calculate_health_score t ∧ calculate_health_score t ≤ 100 := by
  simp only [calculate_health_score]
  split_ifs <;> omega

lemma failure_prob_bounds (h : ℤ) (t : MachineTelemetryCreate) :
    0 ≤ calculate_failure_probability h t ∧ calculate_failure_probability h t ≤ 100 := by
  simp only [calculate_failure_probability]
  split_ifs <;> omega

lemma uniform_mem (a b u : ℚ) (hab : a ≤ b) (h0 : 0 ≤ u) (h1 : u ≤ 1) :
    a ≤ uniform a b u ∧ uniform a b u ≤ b := by
  unfold uniform
  constructor
  · nlinarith
  · nlinarith

lemma clamp_mem (lo hi x : ℚ) (h : lo ≤ hi) :
    lo ≤ clamp lo hi x ∧ clamp lo hi x ≤ hi := by
  unfold clamp
  exact ⟨le_max_left _ _, max_le h (min_le_left _ _)⟩

lemma clamp_eq_self (lo hi x : ℚ) (h1 : lo ≤ x) (h2 : x ≤ hi) :
    clamp lo hi x = x := by
  unfold clamp
  rw [min_eq_right h2, max_eq_right h1]

lemma clamp_abs_sub_le (lo hi p x : ℚ) (h1 : lo ≤ p) (h2 : p ≤ hi) :
    |clamp lo hi x - p| ≤ |x - p| := by
  unfold clamp
  rcases le_total x lo with hx | hx
  · rw [min_eq_right (hx.trans (h1.trans h2)), max_eq_left hx]
    rw [abs_of_nonpos (by linarith), abs_of_nonpos (by linarith)]
    linarith
  · rcases le_total x hi with hx' | hx'
    · rw [min_eq_right hx', max_eq_right hx]
    · rw [min_eq_left hx', max_eq_right (h1.trans h2)]
      rw [abs_of_nonneg (by linarith), abs_of_nonneg (by linarith)]
      linarith

lemma workerEmbeddedScore_ge_35 (a b : ℤ) (c : ℚ) : 35 ≤ workerEmbeddedScore a b c := by
  simp only [workerEmbeddedScore]
  split_ifs <;> omega

lemma determine_risk_state_of_ge_35 (c : ℤ) (h : 35 ≤ c) :
    determine_risk_state c = "MEDIUM" ∨ determine_risk_state c = "LOW" := by
  unfold determine_risk_state
  split_ifs with h1 h2
  · exact absurd h1 (by omega)
  · left; rfl
  · right; rfl

lemma pyUpper_pyLower_risk (c : ℤ) :
    pyUpper (pyLower (determine_risk_state c)) = determine_risk_state c := by
  unfold determine_risk_state
  split_ifs <;> decide

lemma roundHalfEven_le (B : ℤ) (y : ℚ) (h : y ≤ B) : roundHalfEven y ≤ B := by
  have hfB : ⌊y⌋ ≤ B := by
    have := Int.floor_le_floor h
    simpa using this
  simp only [roundHalfEven]
  split_ifs with h1 h2 h3
  · exact hfB
  · -- y - ⌊y⌋ > 1/2, so ⌊y⌋ + 1/2 < y ≤ B and hence ⌊y⌋ < B
    have : (⌊y⌋ : ℚ) + 1/2 < (B : ℚ) := by linarith
    have : (⌊y⌋ : ℚ) < (B : ℚ) := by linarith
    have : ⌊y⌋ < B := by exact_mod_cast this
    omega
  · exact hfB
  · -- tie: y - ⌊y⌋ = 1/2 exactly
    have hr : y - (⌊y⌋ : ℚ) = 1/2 := le_antisymm (not_lt.mp h2) (not_lt.mp h1)
    have : (⌊y⌋ : ℚ) + 1/2 ≤ (B : ℚ) := by linarith
    have : (⌊y⌋ : ℚ) < (B : ℚ) := by linarith
    have : ⌊y⌋ < B := by exact_mod_cast this
    omega

lemma le_roundHalfEven (A : ℤ) (y : ℚ) (h : (A : ℚ) ≤ y) : A ≤ roundHalfEven y := by
  have hfA : A ≤ ⌊y⌋ := Int.le_floor.mpr h
  simp only [roundHalfEven]
  split_ifs <;> omega

lemma pyRound_le (B : ℤ) (x : ℚ) (d : ℕ) (h : x ≤ B) : pyRound x d ≤ B := by
  have hpow : (0:ℚ) < 10 ^ d := by positivity
  have hmul : x * 10 ^ d ≤ ((B * 10 ^ d : ℤ) : ℚ) := by
    push_cast
    exact mul_le_mul_of_nonneg_right h hpow.le
  have := roundHalfEven_le (B * 10 ^ d) (x * 10 ^ d) hmul
  simp only [pyRound]
  rw [div_le_iff₀ hpow]
  calc ((roundHalfEven (x * 10 ^ d) : ℚ)) ≤ ((B * 10 ^ d : ℤ) : ℚ) := by exact_mod_cast this
    _ = (B : ℚ) * 10 ^ d := by push_cast; ring

lemma le_pyRound (A : ℤ) (x : ℚ) (d : ℕ) (h : (A : ℚ) ≤ x) : (A : ℚ) ≤ pyRound x d := by
  have hpow : (0:ℚ) < 10 ^ d := by positivity
  have hmul : ((A * 10 ^ d : ℤ) : ℚ) ≤ x * 10 ^ d := by
    push_cast
    exact mul_le_mul_of_nonneg_right h hpow.le
  have := le_roundHalfEven (A * 10 ^ d) (x * 10 ^ d) hmul
  simp only [pyRound]
  rw [le_div_iff₀ hpow]
  calc (A : ℚ) * 10 ^ d = ((A * 10 ^ d : ℤ) : ℚ) := by push_cast; ring
    _ ≤ (roundHalfEven (x * 10 ^ d) : ℚ) := by exact_mod_cast this

lemma pyInt_le (B : ℤ) (x : ℚ) (h : x ≤ B) : pyInt x ≤ B := by
  simp only [pyInt]
  split_ifs with h0
  · have : ⌈x⌉ ≤ ⌈(B:ℚ)⌉ := Int.ceil_le_ceil h
    simpa using this
  · have : ⌊x⌋ ≤ ⌊(B:ℚ)⌋ := Int.floor_le_floor h
    simpa using this

lemma le_pyInt (A : ℤ) (x : ℚ) (h : (A : ℚ) ≤ x) : A ≤ pyInt x := by
  simp only [pyInt]
  split_ifs with hneg
  · exact le_trans (Int.le_floor.mpr h) (Int.floor_le_ceil x)
  · exact Int.le_floor.mpr h

lemma clampStep_spec (dlo dhi lo hi p u : ℚ) (hp1 : lo ≤ p) (hp2 : p ≤ hi)
    (hd : dlo ≤ dhi) (hu0 : 0 ≤ u) (hu1 : u ≤ 1) :
    lo ≤ clamp lo hi (p + uniform dlo dhi u) ∧
    clamp lo hi (p + uniform dlo dhi u) ≤ hi ∧
    |clamp lo hi (p + uniform dlo dhi u) - p| ≤ max |dlo| |dhi| := by
  have hum := uniform_mem dlo dhi u hd hu0 hu1
  have hcm := clamp_mem lo hi (p + uniform dlo dhi u) (hp1.trans hp2)
  refine ⟨hcm.1, hcm.2, ?_⟩
  have h1 := clamp_abs_sub_le lo hi p (p + uniform dlo dhi u) hp1 hp2
  have h2 : |p + uniform dlo dhi u - p| = |uniform dlo dhi u| := by
    congr 1
    ring
  have h3 : |uniform dlo dhi u| ≤ max |dlo| |dhi| := by
    rw [abs_le]
    constructor
    · have hl : -(max |dlo| |dhi|) ≤ dlo := by
        have := neg_abs_le dlo
        have := le_max_left |dlo| |dhi|
        linarith
      linarith [hum.1]
    · have hr : dhi ≤ max |dlo| |dhi| := (le_abs_self dhi).trans (le_max_right _ _)
      linarith [hum.2]
  calc |clamp lo hi (p + uniform dlo dhi u) - p|
      ≤ |p + uniform dlo dhi u - p| := h1
    _ = |uniform dlo dhi u| := h2
    _ ≤ max |dlo| |dhi| := h3

lemma clampStep_trajectory (dlo dhi lo hi : ℚ) (hd : dlo ≤ dhi)
    (us : List ℚ) :
    ∀ (p : ℚ), lo ≤ p → p ≤ hi → (∀ x ∈ us, 0 ≤ x ∧ x ≤ 1) →
    (∀ v ∈ List.scanl (fun p u => clamp lo hi (p + uniform dlo dhi u)) p us,
        lo ≤ v ∧ v ≤ hi) ∧
    List.Chain' (fun a b => |b - a| ≤ max |dlo| |dhi|)
      (List.scanl (fun p u => clamp lo hi (p + uniform dlo dhi u)) p us) := by
  induction us with
  | nil =>
    intro p hp1 hp2 _
    constructor
    · intro v hv
      rw [List.scanl_nil, List.mem_singleton] at hv
      subst hv
      exact ⟨hp1, hp2⟩
    · rw [List.scanl_nil]
      exact List.chain'_singleton p
  | cons u us ih =>
    intro p hp1 hp2 hus
    have hu := hus u (List.mem_cons_self u us)
    have hstep := clampStep_spec dlo dhi lo hi p u hp1 hp2 hd hu.1 hu.2
    have ihq := ih (clamp lo hi (p + uniform dlo dhi u)) hstep.1 hstep.2.1
      (fun x hx => hus x (List.mem_cons_of_mem u hx))
    rw [List.scanl_cons, List.singleton_append]
    constructor
    · intro v hv
      rcases List.mem_cons.mp hv with h | h
      · subst h
        exact ⟨hp1, hp2⟩
      · exact ihq.1 v h
    · rw [List.chain'_cons']
      refine ⟨?_, ihq.2⟩
      intro b hb
      have hhead : (List.scanl (fun p u => clamp lo hi (p + uniform dlo dhi u))
          (clamp lo hi (p + uniform dlo dhi u)) us).head? =
          some (clamp lo hi (p + uniform dlo dhi u)) := by
        cases us <;> rfl
      rw [hhead, Option.mem_some_iff] at hb
      subst hb
      exact hstep.2.2

end HarmonyAura

namespace HarmonyAura

/- ===================== Claim theorems ===================== -/

set_option maxHeartbeats 1600000 in
/-- C1: for every worker reading within the declared field bounds, the
worker scorer returns 100 minus the sum of the independent per-metric
penalties, clamped to [0,100]; in particular the spec's example input
(heart_rate 130, hrv 15, temperature 39.0, machine_stress_index 80,
jerk_count 5) yields cis_score 0 and risk_state HIGH. -/
theorem worker_scorer_matches_spec_formula :
    (∀ v : WorkerVitalsCreate, workerVitalsInBounds v →
      calculate_cis_score v = cisScoreSpecFormula v) ∧
    calculate_cis_score exampleVitalsC1 = 0 ∧
    determine_risk_state (calculate_cis_score exampleVitalsC1) = "HIGH" := by
  refine ⟨fun v _ => ?_, ?_, ?_⟩
  · simp only [calculate_cis_score, cisScoreSpecFormula]
    split_ifs <;> omega
  · with_unfolding_all decide
  · with_unfolding_all decide

set_option maxHeartbeats 1600000 in
/-- C1 witness: the bounds hypothesis of the universally quantified part is
satisfiable; the equality holds at a concrete in-bounds reading. -/
theorem worker_scorer_matches_spec_formula_witness :
    workerVitalsInBounds exampleVitalsNominal ∧
    calculate_cis_score exampleVitalsNominal = cisScoreSpecFormula exampleVitalsNominal :=
  ⟨by with_unfolding_all decide,
    worker_scorer_matches_spec_formula.1 exampleVitalsNominal (by with_unfolding_all decide)⟩

set_option maxHeartbeats 1600000 in
/-- C2: for every machine reading within the declared field bounds, the
machine pipeline computes health_score, failure_probability and
predicted_maintenance_days per the spec formulas; in particular the spec's
example (stress 85, temperature 95, vibration 3.5, oil 15) yields
health 0, failure probability 100, status MAINTENANCE and 1 predicted day. -/
theorem machine_scorer_matches_spec_formula :
    (∀ t : MachineTelemetryCreate, machineTelemetryInBounds t →
      calculate_health_score t = healthScoreSpecFormula t ∧
      calculate_failure_probability (calculate_health_score t) t
        = failureProbSpecFormula (calculate_health_score t) t ∧
      predicted_maintenance_days (calculate_failure_probability (calculate_health_score t) t)
        = predictedDaysSpecFormula
            (calculate_failure_probability (calculate_health_score t) t)) ∧
    calculate_health_score exampleTelemetryC2 = 0 ∧
    calculate_failure_probability (calculate_health_score exampleTelemetryC2)
      exampleTelemetryC2 = 100 ∧
    determine_status (calculate_health_score exampleTelemetryC2)
      (calculate_failure_probability (calculate_health_score exampleTelemetryC2)
        exampleTelemetryC2) = "MAINTENANCE" ∧
    predicted_maintenance_days
      (calculate_failure_probability (calculate_health_score exampleTelemetryC2)
        exampleTelemetryC2) = 1 := by
  refine ⟨fun t _ => ⟨?_, ?_, ?_⟩, ?_, ?_, ?_, ?_⟩
  · simp only [calculate_health_score, healthScoreSpecFormula]
    split_ifs <;> omega
  · have hb := health_score_bounds t
    simp only [calculate_failure_probability, failureProbSpecFormula]
    split_ifs <;> omega
  · have hb := failure_prob_bounds (calculate_health_score t) t
    have hq : (0:ℚ) ≤ (100 - (calculate_failure_probability (calculate_health_score t) t : ℚ)) / 3 := by
      have h100 : (calculate_failure_probability (calculate_health_score t) t : ℚ) ≤ 100 := by
        exact_mod_cast hb.2
      have : (0:ℚ) ≤ 100 - (calculate_failure_probability (calculate_health_score t) t : ℚ) := by
        linarith
      positivity
    simp only [predicted_maintenance_days, predictedDaysSpecFormula, pyInt,
      if_neg (not_lt.mpr hq)]
  · with_unfolding_all decide
  · with_unfolding_all decide
  · with_unfolding_all decide
  · with_unfolding_all decide

set_option maxHeartbeats 1600000 in
/-- C2 witness: the bounds hypothesis of the universally quantified part is
satisfiable; the formulas agree at the concrete example reading. -/
theorem machine_scorer_matches_spec_formula_witness :
    machineTelemetryInBounds exampleTelemetryC2 ∧
    calculate_health_score exampleTelemetryC2 = healthScoreSpecFormula exampleTelemetryC2 :=
  ⟨by with_unfolding_all decide,
    (machine_scorer_matches_spec_formula.1 exampleTelemetryC2 (by with_unfolding_all decide)).1⟩

/-- C3 counterexample: the claim maps score 71 to MEDIUM, but
`determine_risk_state 71` is LOW (the MEDIUM band ends at 70). -/
theorem risk_state_boundary_counterexample :
    determine_risk_state 71 = "LOW" ∧ ("LOW" : String) ≠ "MEDIUM" := by
  with_unfolding_all decide

/-- C3 amended: the worker risk-category boundaries are 30/31 (HIGH to
MEDIUM) and 70/71 (MEDIUM to LOW): score 30 is HIGH, 31 is MEDIUM, 70 is
MEDIUM, 71 and 72 are LOW. -/
theorem risk_state_boundaries :
    determine_risk_state 30 = "HIGH" ∧ determine_risk_state 31 = "MEDIUM" ∧
    determine_risk_state 70 = "MEDIUM" ∧ determine_risk_state 71 = "LOW" ∧
    determine_risk_state 72 = "LOW" := by
  with_unfolding_all decide

set_option maxHeartbeats 1600000 in
/-- C4 counterexample: a reachable cold-start output of the worker telemetry
generator whose embedded cis_score (100) differs from the standalone scorer
applied to the very same generated fields (81, because the standalone scorer
penalises hrv 30 and jerk_count 2 while the embedded scoring does not). -/
theorem generator_vs_standalone_scorer_cex :
    workerRandValid cexWorkerRand ∧
    calculate_cis_score (workerOutToVitals
        (generate_comprehensive_worker_telemetry none none cexWorkerRand)) = 81 ∧
    (generate_comprehensive_worker_telemetry none none cexWorkerRand).cis_score = 100 ∧
    (81 : ℤ) ≠ 100 := by
  with_unfolding_all decide

/-- C4 amended: the cis_score field of every worker generator output equals
the generator's own embedded three-rule scoring (100 − 20·[hr>110] −
20·[hrv<25] − 25·[temp>38.0], clamped) of the generated heart_rate, hrv and
temperature fields — not the §4.1 standalone scorer. -/
theorem generator_cis_is_embedded_score (cv : Option WorkerPrevValues)
    (tgt : Option TargetState) (r : WorkerRand) :
    (generate_comprehensive_worker_telemetry cv tgt r).cis_score
      = workerEmbeddedScore
          (generate_comprehensive_worker_telemetry cv tgt r).heart_rate
          (generate_comprehensive_worker_telemetry cv tgt r).hrv
          (generate_comprehensive_worker_telemetry cv tgt r).temperature := rfl

/-- C5: every worker generator output has cis_score at least 35 (the three
embedded penalties sum to at most 65), so its risk_state is MEDIUM or LOW
and never HIGH — for any previous values, any target state, any draws. -/
theorem generator_cis_at_least_35 (cv : Option WorkerPrevValues)
    (tgt : Option TargetState) (r : WorkerRand) :
    35 ≤ (generate_comprehensive_worker_telemetry cv tgt r).cis_score ∧
    ((generate_comprehensive_worker_telemetry cv tgt r).risk_state = "MEDIUM" ∨
      (generate_comprehensive_worker_telemetry cv tgt r).risk_state = "LOW") ∧
    (generate_comprehensive_worker_telemetry cv tgt r).risk_state ≠ "HIGH" := by
  have hcis : (generate_comprehensive_worker_telemetry cv tgt r).cis_score
      = workerEmbeddedScore
          (generate_comprehensive_worker_telemetry cv tgt r).heart_rate
          (generate_comprehensive_worker_telemetry cv tgt r).hrv
          (generate_comprehensive_worker_telemetry cv tgt r).temperature := rfl
  have hrisk : (generate_comprehensive_worker_telemetry cv tgt r).risk_state
      = pyUpper (pyLower (determine_risk_state
          ((generate_comprehensive_worker_telemetry cv tgt r).cis_score))) := rfl
  have h35 : 35 ≤ (generate_comprehensive_worker_telemetry cv tgt r).cis_score := by
    rw [hcis]
    exact workerEmbeddedScore_ge_35 _ _ _
  have hml := determine_risk_state_of_ge_35 _ h35
  refine ⟨h35, ?_, ?_⟩
  · rw [hrisk, pyUpper_pyLower_risk]
    exact hml
  · rw [hrisk, pyUpper_pyLower_risk]
    rcases hml with h | h <;> rw [h] <;> decide

/-- C6: an incremental generation step (previous present, no target state)
keeps every metric within its absolute clamp bounds and moves it by at most
the per-step delta bound — for the worker and the machine `get_value`, for
any number of successive steps (`List.scanl` trajectories), and in
particular for the generated integer heart rate (delta bound 3 bpm). -/
theorem incremental_generation_bounded (dlo dhi lo hi p u : ℚ)
    (hp1 : lo ≤ p) (hp2 : p ≤ hi) (hd : dlo ≤ dhi) (hu0 : 0 ≤ u) (hu1 : u ≤ 1) :
    (lo ≤ worker_incremental_step dlo dhi lo hi p u ∧
      worker_incremental_step dlo dhi lo hi p u ≤ hi ∧
      |worker_incremental_step dlo dhi lo hi p u - p| ≤ max |dlo| |dhi|) ∧
    (lo ≤ machine_incremental_step dlo dhi lo hi p u ∧
      machine_incremental_step dlo dhi lo hi p u ≤ hi ∧
      |machine_incremental_step dlo dhi lo hi p u - p| ≤ max |dlo| |dhi|) ∧
    (∀ us : List ℚ, (∀ x ∈ us, 0 ≤ x ∧ x ≤ 1) →
      (∀ v ∈ List.scanl (worker_incremental_step dlo dhi lo hi) p us, lo ≤ v ∧ v ≤ hi) ∧
      List.Chain' (fun a b => |b - a| ≤ max |dlo| |dhi|)
        (List.scanl (worker_incremental_step dlo dhi lo hi) p us)) ∧
    (∀ us : List ℚ, (∀ x ∈ us, 0 ≤ x ∧ x ≤ 1) →
      (∀ v ∈ List.scanl (machine_incremental_step dlo dhi lo hi) p us, lo ≤ v ∧ v ≤ hi) ∧
      List.Chain' (fun a b => |b - a| ≤ max |dlo| |dhi|)
        (List.scanl (machine_incremental_step dlo dhi lo hi) p us)) ∧
    (∀ (cv : WorkerPrevValues) (h : ℤ) (r : WorkerRand), workerRandValid r →
      cv.heart_rate_bpm = (h : ℚ) → 45 ≤ h → h ≤ 180 →
      45 ≤ (generate_comprehensive_worker_telemetry (some cv) none r).heart_rate ∧
      (generate_comprehensive_worker_telemetry (some cv) none r).heart_rate ≤ 180 ∧
      |(generate_comprehensive_worker_telemetry (some cv) none r).heart_rate - h| ≤ 3) := by
  have hwstep : worker_incremental_step dlo dhi lo hi
      = fun p u => clamp lo hi (p + uniform dlo dhi u) := rfl
  have hmstep : machine_incremental_step dlo dhi lo hi
      = fun p u => clamp lo hi (p + uniform dlo dhi u) := rfl
  refine ⟨?_, ?_, ?_, ?_, ?_⟩
  · rw [hwstep]
    exact clampStep_spec dlo dhi lo hi p u hp1 hp2 hd hu0 hu1
  · rw [hmstep]
    exact clampStep_spec dlo dhi lo hi p u hp1 hp2 hd hu0 hu1
  · intro us hus
    rw [hwstep]
    exact clampStep_trajectory dlo dhi lo hi hd us p hp1 hp2 hus
  · intro us hus
    rw [hmstep]
    exact clampStep_trajectory dlo dhi lo hi hd us p hp1 hp2 hus
  · intro cv h r hval hhr h45 h180
    obtain ⟨hu0', hu1', -⟩ := hval
    have hx : (generate_comprehensive_worker_telemetry (some cv) none r).heart_rate
        = pyInt (clamp 45 180 (cv.heart_rate_bpm + uniform (-3) 3 r.u_heart_rate)) := rfl
    rw [hx, hhr]
    have hspec := clampStep_spec (-3) 3 45 180 (h : ℚ) r.u_heart_rate
      (by exact_mod_cast h45) (by exact_mod_cast h180) (by norm_num) hu0' hu1'
    have hmax : max |(-3 : ℚ)| |(3 : ℚ)| = 3 := by norm_num
    rw [hmax] at hspec
    have habs := abs_le.mp hspec.2.2
    have hlow : (h - 3 : ℤ) ≤ pyInt (clamp 45 180 ((h : ℚ) + uniform (-3) 3 r.u_heart_rate)) := by
      apply le_pyInt
      push_cast
      linarith [habs.1]
    have hhigh : pyInt (clamp 45 180 ((h : ℚ) + uniform (-3) 3 r.u_heart_rate)) ≤ (h + 3 : ℤ) := by
      apply pyInt_le
      push_cast
      linarith [habs.2]
    have hlo45 : (45 : ℤ) ≤ pyInt (clamp 45 180 ((h : ℚ) + uniform (-3) 3 r.u_heart_rate)) := by
      apply le_pyInt
      exact_mod_cast hspec.1
    have hhi180 : pyInt (clamp 45 180 ((h : ℚ) + uniform (-3) 3 r.u_heart_rate)) ≤ (180 : ℤ) := by
      apply pyInt_le
      exact_mod_cast hspec.2.1
    refine ⟨hlo45, hhi180, ?_⟩
    rw [abs_le]
    omega

/-- C6 witness: the hypotheses hold at the heart-rate instantiation
(bounds 45-180, delta ±3, previous value 60, draw 1/2). -/
theorem incremental_generation_bounded_witness :
    45 ≤ worker_incremental_step (-3) 3 45 180 60 (1/2) :=
  (incremental_generation_bounded (-3) 3 45 180 60 (1/2)
    (by with_unfolding_all decide) (by with_unfolding_all decide)
    (by with_unfolding_all decide) (by with_unfolding_all decide)
    (by with_unfolding_all decide)).1.1

/-- C7: the worker cis score, the machine health score and the machine
failure probability are clamped to [0,100] for every input, also outside
the declared domain bounds. -/
theorem scorer_outputs_in_range (v : WorkerVitalsCreate) (t : MachineTelemetryCreate) (h : ℤ) :
    (0 ≤ calculate_cis_score v ∧ calculate_cis_score v ≤ 100) ∧
    (0 ≤ calculate_health_score t ∧ calculate_health_score t ≤ 100) ∧
    (0 ≤ calculate_failure_probability h t ∧ calculate_failure_probability h t ≤ 100) :=
  ⟨cis_score_bounds v, health_score_bounds t, failure_prob_bounds h t⟩

set_option maxHeartbeats 1600000 in
/-- C8 counterexample: a reachable cold-start CRANE generation (no target
state, all uniform draws at their lower end) produces stress_index 0, which
lies outside the CRANE profile's stress range (20, 70) — so not every
generated metric respects the profile range. -/
theorem crane_cold_start_profile_cex :
    machineRandValid cexMachineRand ∧
    (generate_comprehensive_telemetry craneProfile none none cexMachineRand).stress_index = 0 ∧
    craneProfile.stress_range = (20, 70) ∧
    ¬((20 : ℚ) ≤ ((0 : ℤ) : ℚ)) := by
  with_unfolding_all decide

/-- C8 amended: at cold start without target state, the CRANE temperature
(a metric drawn from the profile) always lies within the profile range
[45, 85]; the derived stress_index, by contrast, is computed from other
metrics and need not lie in the profile stress range. -/
theorem crane_cold_start_temperature_in_profile_range (r : MachineRand)
    (hval : machineRandValid r) :
    45 ≤ (generate_comprehensive_telemetry craneProfile none none r).temperature ∧
    (generate_comprehensive_telemetry craneProfile none none r).temperature ≤ 85 := by
  obtain ⟨-, -, -, -, -, -, -, -, -, -, -, -, -, -, hu0, hu1, -⟩ := hval
  have ht : (generate_comprehensive_telemetry craneProfile none none r).temperature
      = pyRound (clamp 40 120 (uniform 45 85 r.u_engine_temp)) 1 := rfl
  have hum := uniform_mem 45 85 r.u_engine_temp (by norm_num) hu0 hu1
  have hcl : clamp 40 120 (uniform 45 85 r.u_engine_temp) = uniform 45 85 r.u_engine_temp :=
    clamp_eq_self _ _ _ (by linarith [hum.1]) (by linarith [hum.2])
  rw [ht, hcl]
  constructor
  · exact_mod_cast le_pyRound 45 _ 1 (by exact_mod_cast hum.1)
  · exact_mod_cast pyRound_le 85 _ 1 (by exact_mod_cast hum.2)

set_option maxHeartbeats 1600000 in
/-- C8 witness: the draw-validity hypothesis holds at the all-mid-range
draw record, where the generated CRANE temperature indeed lies in [45, 85]. -/
theorem crane_cold_start_temperature_witness :
    45 ≤ (generate_comprehensive_telemetry craneProfile none none halfMachineRand).temperature ∧
    (generate_comprehensive_telemetry craneProfile none none halfMachineRand).temperature ≤ 85 :=
  crane_cold_start_temperature_in_profile_range halfMachineRand (by with_unfolding_all decide)

set_option maxHeartbeats 1600000 in
/-- C9 counterexample: pushing vitals for a worker id that is not registered
does not fail — the worker is auto-created and a history entry is persisted
(here into an empty store), contradicting the claim for the worker pipeline. -/
theorem worker_ingestion_persists_unregistered_cex :
    exampleVitalsNominal.worker_id ∉ emptyWorkerDB.workers ∧
    (create_worker_vitals emptyWorkerDB exampleVitalsNominal).1.vitals_history
      = [mkStoredWorkerVitals exampleVitalsNominal] := by
  with_unfolding_all decide

/-- C9 amended: machine telemetry ingestion for an unregistered machine
fails with the not-found error and persists nothing; worker vitals
ingestion, by contrast, always succeeds — it auto-registers the worker and
appends the scored entry. -/
theorem entity_not_found_behaviour :
    (∀ (db : MachineDB) (t : MachineTelemetryCreate), t.machine_id ∉ db.machines →
      create_machine_telemetry db t
        = .error ("Machine " ++ t.machine_id ++ " not registered. Please register first.")) ∧
    (∀ (db : WorkerDB) (v : WorkerVitalsCreate),
      (create_worker_vitals db v).1.vitals_history
        = mkStoredWorkerVitals v :: db.vitals_history ∧
      v.worker_id ∈ (create_worker_vitals db v).1.workers) := by
  constructor
  · intro db t h
    simp only [create_machine_telemetry, if_neg h]
  · intro db v
    by_cases h : v.worker_id ∈ db.workers <;>
      simp [create_worker_vitals, h]

/-- C9 witness: the not-registered hypothesis holds for the empty machine
store, where ingestion indeed returns the not-found error. -/
theorem entity_not_found_behaviour_witness :
    create_machine_telemetry emptyMachineDB exampleTelemetryC2
      = .error ("Machine " ++ exampleTelemetryC2.machine_id
          ++ " not registered. Please register first.") :=
  entity_not_found_behaviour.1 emptyMachineDB exampleTelemetryC2 (by decide)

/-- C10: the worker scorer is weakly decreasing in heart_rate at or above
the bradycardia band: for two readings agreeing on all other fields with
50 ≤ heart_rate₁ ≤ heart_rate₂, the score at heart_rate₂ is at most the
score at heart_rate₁. -/
theorem cis_score_antitone_in_heart_rate (v1 v2 : WorkerVitalsCreate)
    (hhrv : v1.hrv = v2.hrv) (htemp : v1.temperature = v2.temperature)
    (hjerk : v1.jerk_count = v2.jerk_count)
    (hmsi : v1.machine_stress_index = v2.machine_stress_index)
    (h50 : 50 ≤ v1.heart_rate) (hle : v1.heart_rate ≤ v2.heart_rate) :
    calculate_cis_score v2 ≤ calculate_cis_score v1 := by
  have hpen : (if v1.heart_rate > 120 then (30:ℤ)
        else if v1.heart_rate > 100 then 15
        else if v1.heart_rate < 50 then 20 else 0)
      ≤ (if v2.heart_rate > 120 then (30:ℤ)
        else if v2.heart_rate > 100 then 15
        else if v2.heart_rate < 50 then 20 else 0) := by
    split_ifs <;> omega
  simp only [calculate_cis_score]
  rw [hhrv, htemp, hjerk, hmsi]
  omega

/-- C10 witness: raising the heart rate of the nominal reading from 60 to
130 does not increase the score. -/
theorem cis_score_antitone_witness :
    calculate_cis_score { exampleVitalsNominal with heart_rate := 130 }
      ≤ calculate_cis_score exampleVitalsNominal :=
  cis_score_antitone_in_heart_rate exampleVitalsNominal
    { exampleVitalsNominal with heart_rate := 130 } rfl rfl rfl rfl
    (by decide) (by decide)

end HarmonyAura
